import Mathlib

/-!
Shallow embedding of asn_lookup.py.

The program has two functions and a presentation block:

  * get_ip_from_input (lines 57-70): tries socket.inet_aton on the raw
    input; on success returns the input unchanged with flag False, else
    resolves it through socket.gethostbyname, returning the resolved
    address with flag True, or (None, None) plus a printed message when
    DNS fails.
  * asn_lookup (lines 72-82): calls IPWhois(ip).lookup_rdap with
    asn_methods equal to the singleton list whois; returns the response
    unchanged on success, and on IPDefinedError or any other Exception
    prints a diagnostic and returns None.
  * the main block (lines 84-129): prints the ASN fields, the network
    details (skipped entirely when the network sub-object is missing or
    empty) and the event history in source order.

External collaborators are modelled as explicit parameters: DNS as an
oracle of type String to Option String (gethostbyname returns the first
resolved address, gaierror is none), the ipwhois registry client as an
oracle of type String to RdapOutcome. The libc inet_aton primitive that
socket.inet_aton delegates to is deterministic, so it is embedded as the
standard C library algorithm (strtoul with base detection, up to four
components, bound checks per remaining bytes, a single trailing
whitespace character permitted). Print side effects are modelled as
lists of printed lines, and calls to the oracles are counted where a
claim is about the number of calls made.
-/

/-- Model of the C isdigit test used by inet_aton: decimal digits only. -/
def isDigitChar (c : Char) : Bool :=
  decide (48 ≤ c.toNat ∧ c.toNat ≤ 57)

/-- Model of the isascii and isspace trailing-character test of inet_aton. -/
def isSpaceChar (c : Char) : Bool :=
  decide (c.toNat = 32 ∨ (9 ≤ c.toNat ∧ c.toNat ≤ 13))

/-- Numeric value of a digit character in bases up to 16, as C strtoul reads it. -/
def digitVal (c : Char) : Option Nat :=
  if 48 ≤ c.toNat ∧ c.toNat ≤ 57 then some (c.toNat - 48)
  else if 97 ≤ c.toNat ∧ c.toNat ≤ 102 then some (c.toNat - 87)
  else if 65 ≤ c.toNat ∧ c.toNat ≤ 70 then some (c.toNat - 55)
  else none

/-- Digit value restricted to a base. -/
def digitInBase (b : Nat) (c : Char) : Option Nat :=
  (digitVal c).bind (fun d => if d < b then some d else none)

/-- Accumulating digit parser of strtoul: consumes digits of the base,
returns the value and the unconsumed suffix. -/
def parseBase (b : Nat) : List Char → Nat → Nat × List Char
  | [], acc => (acc, [])
  | c :: cs, acc =>
    match digitInBase b c with
    | some d => parseBase b cs (acc * b + d)
    | none => (acc, c :: cs)

/-- Does the list start with a hexadecimal digit. -/
def isHexStart (cs : List Char) : Bool :=
  match cs with
  | c :: _ => (digitInBase 16 c).isSome
  | [] => false

/-- Model of C strtoul with base 0 (hex after 0x, octal after 0, else
decimal), under the precondition maintained by inet_aton that the first
character is a decimal digit. -/
def strtoul0 (cs : List Char) : Nat × List Char :=
  match cs with
  | [] => (0, [])
  | c :: rest =>
    if c = '0' then
      match rest with
      | [] => (0, [])
      | k :: rest2 =>
        if k = 'x' ∨ k = 'X' then
          if isHexStart rest2 then parseBase 16 rest2 0 else (0, k :: rest2)
        else parseBase 8 rest 0
    else parseBase 10 (c :: rest) 0

/-- Largest value inet_aton permits for the final component when r more
dot-separated components would still have been allowed. -/
def lastMax (r : Nat) : Nat :=
  if r = 0 then 255 else if r = 1 then 65535 else if r = 2 then 16777215 else 4294967295

/-- One component step of inet_aton: fail unless the head is a decimal
digit, read one strtoul component, fail when it exceeds 32 bits. -/
def inet_aton_comp (cs : List Char) : Option (Nat × List Char) :=
  match cs with
  | [] => none
  | c :: cs2 =>
    if isDigitChar c = false then none
    else if 4294967295 < (strtoul0 (c :: cs2)).1 then none
    else some (strtoul0 (c :: cs2))

/-- Main loop of the C library inet_aton, with r the number of further
dot-separated components still permitted (three at entry). On a dot the
component must fit in a byte; at the end of the number the component must
fit in the remaining bytes, and at most one trailing character, which
must be ascii whitespace, is tolerated. -/
def inet_aton_loop : Nat → List Char → Bool
  | 0, cs =>
    match inet_aton_comp cs with
    | none => false
    | some p =>
      match p.2 with
      | [] => decide (p.1 ≤ lastMax 0)
      | t :: _ =>
        if t = '.' then false
        else isSpaceChar t && decide (p.1 ≤ lastMax 0)
  | r + 1, cs =>
    match inet_aton_comp cs with
    | none => false
    | some p =>
      match p.2 with
      | [] => decide (p.1 ≤ lastMax (r + 1))
      | t :: rest =>
        if t = '.' then
          if 255 < p.1 then false else inet_aton_loop r rest
        else isSpaceChar t && decide (p.1 ≤ lastMax (r + 1))

/-- Model of socket.inet_aton: true when the C primitive accepts the
string as an IPv4 address in BSD notation, false when it raises. -/
def inet_aton (s : String) : Bool := inet_aton_loop 3 s.data

/-- The message printed by get_ip_from_input when DNS resolution fails. -/
def invalid_input_msg : String :=
  "Invalid input: neither a valid IP address nor a resolvable domain."

/-- Observable behaviour of one call to get_ip_from_input: the returned
pair (ip, is_domain), the printed lines, and how many gethostbyname
calls were made. -/
structure ResolveResult where
  ip : Option String
  is_domain : Option Bool
  printed : List String
  dnsCalls : Nat
deriving DecidableEq, Repr

/-- Embedding of get_ip_from_input (asn_lookup.py lines 57-70). dns is
the gethostbyname oracle: some a means resolution to first address a,
none means gaierror. -/
def get_ip_from_input (dns : String → Option String) (user_input : String) : ResolveResult :=
  if inet_aton user_input then
    { ip := some user_input, is_domain := some false, printed := [], dnsCalls := 0 }
  else
    match dns user_input with
    | some ip_address =>
      { ip := some ip_address, is_domain := some true, printed := [], dnsCalls := 1 }
    | none =>
      { ip := none, is_domain := none, printed := [invalid_input_msg], dnsCalls := 1 }

/-- The nested network dictionary of an RDAP response; each field of the
source dictionary is independently optional. -/
structure RdapNetwork where
  name : Option String
  start_address : Option String
  end_address : Option String
  country : Option String
  type_ : Option String
  description : Option String
deriving DecidableEq, Repr

/-- One entry of the events list of an RDAP response. -/
structure RdapEvent where
  event_action : Option String
  event_date : Option String
deriving DecidableEq, Repr

/-- The RDAP response dictionary returned by IPWhois.lookup_rdap. The six
asn fields are accessed with brackets in the main block, so they are
mandatory; network is optional (a missing or empty dictionary is none,
matching the falsiness test of the main block); a missing events key is
the empty list, matching the default of the get call. -/
structure RdapResponse where
  asn : String
  asn_cidr : String
  asn_country_code : String
  asn_registry : String
  asn_description : String
  asn_date : String
  network : Option RdapNetwork
  events : List RdapEvent
deriving DecidableEq, Repr

/-- Behaviour of one IPWhois(ip).lookup_rdap call: a response, an
IPDefinedError for reserved addresses, or any other Exception with its
message. -/
inductive RdapOutcome where
  | success (res : RdapResponse)
  | ipDefinedError (msg : String)
  | failure (msg : String)
deriving DecidableEq, Repr

/-- A query made of the ipwhois collaborator, recording which method was
invoked and with which asn_methods argument. -/
inductive RdapQuery where
  | lookup_rdap (asn_methods : List String)
  | lookup_whois (asn_methods : List String)
deriving DecidableEq, Repr

/-- Observable behaviour of one call to asn_lookup: the returned value,
the printed lines, and the registry queries issued. -/
structure LookupResult where
  result : Option RdapResponse
  printed : List String
  queries : List RdapQuery
deriving DecidableEq, Repr

/-- Embedding of asn_lookup (asn_lookup.py lines 72-82). registry is the
oracle giving the behaviour of IPWhois(ip).lookup_rdap at each ip. The
single query made is lookup_rdap with asn_methods the singleton whois
list, source line 76. On success the response is returned unchanged; on
IPDefinedError the function prints an Error line and returns None; on
any other Exception it prints an ASN-lookup-failed line and returns
None. Both except clauses terminate normally, so the embedding is a
total function: no exception escapes. -/
def asn_lookup (registry : String → RdapOutcome) (ip : String) : LookupResult :=
  match registry ip with
  | RdapOutcome.success res =>
    { result := some res, printed := [],
      queries := [RdapQuery.lookup_rdap ["whois"]] }
  | RdapOutcome.ipDefinedError msg =>
    { result := none, printed := ["Error: " ++ msg],
      queries := [RdapQuery.lookup_rdap ["whois"]] }
  | RdapOutcome.failure msg =>
    { result := none, printed := ["ASN lookup failed: " ++ msg],
      queries := [RdapQuery.lookup_rdap ["whois"]] }

/-- The not-available sentinel of the main block. -/
def na : String := "N/A"

/-- Lines 101-108 of the main block: the mandatory ASN fields. -/
def headerLines (ip_address : String) (asn_info : RdapResponse) : List String :=
  ["ASN Information for " ++ ip_address ++ ":",
   "",
   "ASN: " ++ asn_info.asn,
   "ASN CIDR: " ++ asn_info.asn_cidr,
   "ASN Country Code: " ++ asn_info.asn_country_code,
   "ASN Registry: " ++ asn_info.asn_registry,
   "ASN Description: " ++ asn_info.asn_description,
   "ASN Allocation Date: " ++ asn_info.asn_date]

/-- Lines 111-119 of the main block: the network details, printed only
when the network dictionary is present and truthy, with the sentinel
substituted for each individually missing subfield. -/
def networkLines (asn_info : RdapResponse) : List String :=
  match asn_info.network with
  | none => []
  | some network_info =>
    ["\nNetwork Details:",
     "Network Name: " ++ network_info.name.getD na,
     "Network Start IP: " ++ network_info.start_address.getD na,
     "Network End IP: " ++ network_info.end_address.getD na,
     "Network Country: " ++ network_info.country.getD na,
     "Network Type: " ++ network_info.type_.getD na,
     "Network Description: " ++ network_info.description.getD na]

/-- Line 126 of the main block: the text printed for one event. -/
def eventLine (event : RdapEvent) : String :=
  "Event: " ++ event.event_action.getD na ++ ", Date: " ++ event.event_date.getD na

/-- Lines 122-126 of the main block: the event history, iterated in the
order the response supplies, printed only when the list is non-empty. -/
def eventLines (asn_info : RdapResponse) : List String :=
  if asn_info.events.isEmpty then []
  else "\nEvent History:" :: asn_info.events.map eventLine

/-- Everything the main block prints for a successful lookup result. -/
def print_asn_info (ip_address : String) (asn_info : RdapResponse) : List String :=
  headerLines ip_address asn_info ++ networkLines asn_info ++ eventLines asn_info

/-- Embedding of the whole main block (lines 84-129): the complete
transcript printed for one user input, given the two oracles. -/
def main_run (dns : String → Option String) (registry : String → RdapOutcome)
    (user_input : String) : List String :=
  let r := get_ip_from_input dns user_input
  match r.ip with
  | some ip_address =>
    r.printed ++
    (if r.is_domain = some true then
      ["", "IP address for " ++ user_input ++ " is " ++ ip_address, ""]
    else []) ++
    (let info := asn_lookup registry ip_address
     info.printed ++
     match info.result with
     | some asn_info => print_asn_info ip_address asn_info
     | none => [])
  | none => r.printed ++ ["Could not perform ASN lookup due to invalid input."]

/-- Decimal value of a digit list, from an accumulator. -/
def decValFrom (a : Nat) (p : List Char) : Nat :=
  p.foldl (fun b c => b * 10 + (c.toNat - 48)) a

/-- Decimal value of a digit list. -/
def decVal (p : List Char) : Nat := decValFrom 0 p

/-- A decimal octet of a dotted-quad IPv4 literal: non-empty, decimal
digits only, no leading zero except the octet 0 itself, value at most
255. -/
def IsOctet (p : List Char) : Prop :=
  p ≠ [] ∧ (∀ c ∈ p, isDigitChar c = true) ∧
  (p.head? = some '0' → p = ['0']) ∧ decVal p ≤ 255

instance (p : List Char) : Decidable (IsOctet p) := by
  unfold IsOctet
  infer_instance

/-- A valid IPv4 dotted-quad literal: exactly four decimal octets
separated by dots. -/
def IsDottedQuad (s : String) : Prop :=
  ∃ p1 p2 p3 p4 : List Char,
    s.data = p1 ++ '.' :: (p2 ++ '.' :: (p3 ++ '.' :: p4)) ∧
    IsOctet p1 ∧ IsOctet p2 ∧ IsOctet p3 ∧ IsOctet p4

/-! Parser lemmas: a decimal octet is consumed by strtoul0 exactly, so a
dotted quad runs the inet_aton loop through all four components. -/

lemma digitInBase_ten (c : Char) (h : isDigitChar c = true) :
    digitInBase 10 c = some (c.toNat - 48) := by
  have h48 : 48 ≤ c.toNat ∧ c.toNat ≤ 57 := by simpa [isDigitChar] using h
  have hd : digitVal c = some (c.toNat - 48) := by
    unfold digitVal
    rw [if_pos h48]
  have hlt : c.toNat - 48 < 10 := by omega
  simp [digitInBase, hd, hlt]

lemma digitInBase_none (c : Char) (h : isDigitChar c = false) (b : Nat) (hb : b ≤ 10) :
    digitInBase b c = none := by
  have h48 : ¬ (48 ≤ c.toNat ∧ c.toNat ≤ 57) := by simpa [isDigitChar] using h
  unfold digitInBase digitVal
  by_cases h97 : 97 ≤ c.toNat ∧ c.toNat ≤ 102
  · rw [if_neg h48, if_pos h97]
    have : ¬ (c.toNat - 87 < b) := by omega
    simp [this]
  · by_cases h65 : 65 ≤ c.toNat ∧ c.toNat ≤ 70
    · rw [if_neg h48, if_neg h97, if_pos h65]
      have : ¬ (c.toNat - 55 < b) := by omega
      simp [this]
    · rw [if_neg h48, if_neg h97, if_neg h65]
      rfl

lemma parseBase10_append (p r : List Char) (hp : ∀ c ∈ p, isDigitChar c = true)
    (hr : ∀ c, r.head? = some c → isDigitChar c = false) (a : Nat) :
    parseBase 10 (p ++ r) a = (decValFrom a p, r) := by
  induction p generalizing a with
  | nil =>
    simp only [List.nil_append, decValFrom, List.foldl_nil]
    cases r with
    | nil => simp [parseBase]
    | cons t ts =>
      have ht : isDigitChar t = false := hr t rfl
      have hnone : digitInBase 10 t = none := digitInBase_none t ht 10 (le_refl 10)
      simp [parseBase, hnone]
  | cons c p2 ih =>
    have hcd : isDigitChar c = true := hp c (List.mem_cons_self c p2)
    have hsome : digitInBase 10 c = some (c.toNat - 48) := digitInBase_ten c hcd
    simp only [List.cons_append, parseBase, hsome]
    show parseBase 10 (p2 ++ r) (a * 10 + (c.toNat - 48)) = (decValFrom a (c :: p2), r)
    rw [ih (fun d hd => hp d (List.mem_cons_of_mem c hd)) (a * 10 + (c.toNat - 48))]
    simp [decValFrom]

lemma strtoul0_octet (p r : List Char) (hp : IsOctet p)
    (hr : r.head? = none ∨ r.head? = some '.') :
    strtoul0 (p ++ r) = (decVal p, r) := by
  obtain ⟨hne, hdig, hzero, hle⟩ := hp
  have hrd : ∀ c, r.head? = some c → isDigitChar c = false := by
    intro c hc
    rcases hr with h | h
    · rw [h] at hc
      cases hc
    · rw [h] at hc
      injection hc with hc
      subst hc
      decide
  cases p with
  | nil => exact absurd rfl hne
  | cons c p2 =>
    by_cases hc0 : c = '0'
    · subst hc0
      have hp0 : p2 = [] := by
        have h01 := hzero rfl
        injection h01
      subst hp0
      cases hr0 : r with
      | nil => simp [strtoul0, decVal, decValFrom]
      | cons t ts =>
        rcases hr with h | h
        · rw [hr0] at h
          cases h
        · rw [hr0] at h
          injection h with h
          subst h
          have hdot8 : digitInBase 8 '.' = none := by decide
          simp [strtoul0, parseBase, hdot8, decVal, decValFrom]
    · have hall : ∀ d ∈ (c :: p2), isDigitChar d = true := hdig
      rw [List.cons_append]
      show strtoul0 (c :: (p2 ++ r)) = (decVal (c :: p2), r)
      simp only [strtoul0]
      rw [if_neg hc0, ← List.cons_append]
      rw [parseBase10_append (c :: p2) r hall hrd 0]
      rfl

lemma inet_aton_comp_octet (p r : List Char) (hp : IsOctet p)
    (hr : r.head? = none ∨ r.head? = some '.') :
    inet_aton_comp (p ++ r) = some (decVal p, r) := by
  have hst : strtoul0 (p ++ r) = (decVal p, r) := strtoul0_octet p r hp hr
  obtain ⟨hne, hdig, hzero, hle⟩ := hp
  cases p with
  | nil => exact absurd rfl hne
  | cons c p2 =>
    have hc : isDigitChar c = true := hdig c (List.mem_cons_self c p2)
    rw [List.cons_append] at hst ⊢
    have hlt : ¬ (4294967295 < (strtoul0 (c :: (p2 ++ r))).1) := by
      rw [hst]
      have : decVal (c :: p2) ≤ 255 := hle
      simp only []
      omega
    simp [inet_aton_comp, hc, hlt, hst]
    omega

lemma lastMax_ge (r : Nat) : 255 ≤ lastMax r := by
  unfold lastMax
  split
  · omega
  · split
    · omega
    · split <;> omega

lemma loop_dot (r r2 : Nat) (hr : r = r2 + 1) (p rest : List Char) (hp : IsOctet p) :
    inet_aton_loop r (p ++ '.' :: rest) = inet_aton_loop r2 rest := by
  subst hr
  have hcomp : inet_aton_comp (p ++ '.' :: rest) = some (decVal p, '.' :: rest) :=
    inet_aton_comp_octet p ('.' :: rest) hp (Or.inr rfl)
  have h255 : ¬ (255 < decVal p) := by
    have := hp.2.2.2
    omega
  simp only [inet_aton_loop, hcomp]
  simp [h255]

lemma loop_final (r : Nat) (p : List Char) (hp : IsOctet p) :
    inet_aton_loop r p = true := by
  have hcomp : inet_aton_comp p = some (decVal p, []) := by
    have h := inet_aton_comp_octet p [] hp (Or.inl rfl)
    rwa [List.append_nil] at h
  have hle : decVal p ≤ lastMax r := le_trans hp.2.2.2 (lastMax_ge r)
  cases r with
  | zero =>
    simp only [inet_aton_loop, hcomp]
    simpa using hle
  | succ n =>
    simp only [inet_aton_loop, hcomp]
    simpa using hle

lemma dotted_quad_inet_aton (s : String) (h : IsDottedQuad s) : inet_aton s = true := by
  obtain ⟨p1, p2, p3, p4, hs, h1, h2, h3, h4⟩ := h
  unfold inet_aton
  rw [hs]
  rw [loop_dot 3 2 rfl p1 _ h1]
  rw [loop_dot 2 1 rfl p2 _ h2]
  rw [loop_dot 1 0 rfl p3 _ h3]
  exact loop_final 0 p4 h4

lemma quad_has_three_dots (s : String) (h : IsDottedQuad s) :
    3 ≤ s.data.count '.' := by
  obtain ⟨p1, p2, p3, p4, hs, -, -, -, -⟩ := h
  rw [hs]
  simp [List.count_append, List.count_cons_self]
  omega

/-- C3: for every string s that is a valid IPv4 dotted-quad literal,
get_ip_from_input returns s itself as the address with the domain flag
False (sourceWasHostname false, valid true), prints nothing, and makes
no gethostbyname call, for every DNS oracle; no further validation is
performed, in particular reserved and private ranges such as 127.0.0.1
are accepted exactly like any other quad, since the theorem quantifies
over all dotted quads. -/
theorem resolve_ipv4_literal (dns : String → Option String) (s : String)
    (h : IsDottedQuad s) :
    get_ip_from_input dns s =
      { ip := some s, is_domain := some false, printed := [], dnsCalls := 0 } := by
  have ha : inet_aton s = true := dotted_quad_inet_aton s h
  simp [get_ip_from_input, ha]

/-- C3 witness: the concrete dotted quad 8.8.8.8 is returned unchanged
with the direct-IP flag and no DNS call. -/
theorem resolve_ipv4_literal_witness :
    get_ip_from_input (fun _ => none) ("8.8.8.8") =
      { ip := some ("8.8.8.8"), is_domain := some false, printed := [], dnsCalls := 0 } :=
  resolve_ipv4_literal (fun _ => none) ("8.8.8.8")
    ⟨['8'], ['8'], ['8'], ['8'], by decide, by decide, by decide, by decide, by decide⟩

/-- C4: for every string that the inet_aton parse step rejects and that
the DNS oracle cannot resolve, get_ip_from_input returns the pair
(None, None), meaning address absent and valid false, after printing the
invalid-input message; and for every oracle and every input whatsoever
the address component is present exactly when the domain flag is
present, so an address is never returned on the invalid path. -/
theorem resolve_invalid_input (dns : String → Option String) (s : String) :
    (inet_aton s = false → dns s = none →
      get_ip_from_input dns s =
        { ip := none, is_domain := none, printed := [invalid_input_msg], dnsCalls := 1 }) ∧
    ((get_ip_from_input dns s).ip = none ↔ (get_ip_from_input dns s).is_domain = none) := by
  constructor
  · intro h1 h2
    simp [get_ip_from_input, h1, h2]
  · unfold get_ip_from_input
    split
    · simp
    · cases hdns : dns s <;> simp

/-- C4 witness: a string that is not an IPv4 literal, with an oracle
that resolves nothing, produces the (None, None) outcome and the
message. -/
theorem resolve_invalid_input_witness :
    inet_aton ("nx.example") = false ∧
    get_ip_from_input (fun _ => none) ("nx.example") =
      { ip := none, is_domain := none, printed := [invalid_input_msg], dnsCalls := 1 } :=
  ⟨by decide, (resolve_invalid_input (fun _ => none) ("nx.example")).1 (by decide) rfl⟩

/-- C5: for every string the inet_aton parse step rejects and that the
DNS oracle resolves to address a (gethostbyname returns the first
resolved address), get_ip_from_input returns a with the domain flag True
(sourceWasHostname true, valid true), prints nothing, and makes exactly
one gethostbyname call: a single resolution attempt, no retries. -/
theorem resolve_hostname (dns : String → Option String) (h a : String)
    (h1 : inet_aton h = false) (h2 : dns h = some a) :
    get_ip_from_input dns h =
      { ip := some a, is_domain := some true, printed := [], dnsCalls := 1 } := by
  simp [get_ip_from_input, h1, h2]

/-- C5 witness: a hostname resolving to a concrete address is returned
with the domain flag and one DNS call. -/
theorem resolve_hostname_witness :
    inet_aton ("example.com") = false ∧
    get_ip_from_input (fun _ => some ("93.184.216.34")) ("example.com") =
      { ip := some ("93.184.216.34"), is_domain := some true, printed := [], dnsCalls := 1 } :=
  ⟨by decide,
   resolve_hostname (fun _ => some ("93.184.216.34")) ("example.com") ("93.184.216.34")
     (by decide) rfl⟩

/-- C9: the shorthand 127.1 and the bare decimal 2130706433 are not
IPv4 dotted-quad literals, yet the inet_aton parse step accepts them, so
get_ip_from_input returns them unchanged with the direct-IP flag and
attempts no DNS resolution, for every DNS oracle. -/
theorem inet_aton_shorthand_accepted (dns : String → Option String) :
    get_ip_from_input dns ("127.1") =
      { ip := some ("127.1"), is_domain := some false, printed := [], dnsCalls := 0 } ∧
    get_ip_from_input dns ("2130706433") =
      { ip := some ("2130706433"), is_domain := some false, printed := [], dnsCalls := 0 } ∧
    ¬ IsDottedQuad ("127.1") ∧ ¬ IsDottedQuad ("2130706433") := by
  refine ⟨?_, ?_, ?_, ?_⟩
  · have ha : inet_aton "127.1" = true := by decide
    simp [get_ip_from_input, ha]
  · have ha : inet_aton "2130706433" = true := by decide
    simp [get_ip_from_input, ha]
  · intro hq
    have h3 := quad_has_three_dots _ hq
    have h1 : List.count '.' (String.data ("127.1")) = 1 := by decide
    rw [List.count_eq_countP] at h1 h3
    omega
  · intro hq
    have h3 := quad_has_three_dots _ hq
    have h1 : List.count '.' (String.data ("2130706433")) = 0 := by decide
    rw [List.count_eq_countP] at h1 h3
    omega

/-- C9 witness: the theorem applied at a concrete oracle. -/
theorem inet_aton_shorthand_accepted_witness :
    get_ip_from_input (fun _ => none) ("127.1") =
      { ip := some ("127.1"), is_domain := some false, printed := [], dnsCalls := 0 } :=
  (inet_aton_shorthand_accepted (fun _ => none)).1

/-- C1 counterexample: on the reserved-address condition asn_lookup does
not return a typed Failure outcome carrying an ErrorKind and message;
its return value is None, identical to the return value of the generic
failure path, so the two failure kinds cannot be told apart from what
the function returns. -/
theorem asn_lookup_reserved_counterexample :
    (asn_lookup
      (fun _ => RdapOutcome.ipDefinedError
        ("IPv4 address 127.0.0.1 is already defined as Loopback via RFC 1122, Section 3.2.1.3."))
      ("127.0.0.1")).result = none ∧
    (asn_lookup
      (fun _ => RdapOutcome.ipDefinedError
        ("IPv4 address 127.0.0.1 is already defined as Loopback via RFC 1122, Section 3.2.1.3."))
      ("127.0.0.1")).result =
    (asn_lookup (fun _ => RdapOutcome.failure ("HTTP lookup failed for rdap.arin.net."))
      ("127.0.0.1")).result :=
  ⟨rfl, rfl⟩

/-- C1 amended: when the registry query raises IPDefinedError,
asn_lookup returns None and prints one line, Error followed by the
message; this printed diagnostic differs from the one the generic
exception path prints for the same message, so the reserved-address
condition is distinguishable from a generic lookup failure only through
the printed output, never through the returned value, which is None on
both paths. -/
theorem asn_lookup_reserved_prints (registry : String → RdapOutcome) (ip m : String)
    (h : registry ip = RdapOutcome.ipDefinedError m) :
    (asn_lookup registry ip).result = none ∧
    (asn_lookup registry ip).printed = ["Error: " ++ m] ∧
    (asn_lookup registry ip).printed ≠
      (asn_lookup (fun _ => RdapOutcome.failure m) ip).printed := by
  refine ⟨by simp [asn_lookup, h], by simp [asn_lookup, h], ?_⟩
  simp only [asn_lookup, h]
  intro heq
  have hstr : "Error: " ++ m = "ASN lookup failed: " ++ m := by
    injection heq
  have hlen := congrArg String.length hstr
  rw [String.length_append, String.length_append] at hlen
  have h7 : ("Error: ").length = 7 := rfl
  have h19 : ("ASN lookup failed: ").length = 19 := rfl
  omega

/-- C1 witness: the amended theorem at a concrete reserved address. -/
theorem asn_lookup_reserved_prints_witness :
    (asn_lookup (fun _ => RdapOutcome.ipDefinedError ("reserved")) ("10.0.0.1")).result = none ∧
    (asn_lookup (fun _ => RdapOutcome.ipDefinedError ("reserved")) ("10.0.0.1")).printed =
      ["Error: " ++ "reserved"] ∧
    (asn_lookup (fun _ => RdapOutcome.ipDefinedError ("reserved")) ("10.0.0.1")).printed ≠
      (asn_lookup (fun _ => RdapOutcome.failure ("reserved")) ("10.0.0.1")).printed :=
  asn_lookup_reserved_prints (fun _ => RdapOutcome.ipDefinedError ("reserved"))
    ("10.0.0.1") ("reserved") rfl

/-- C2 counterexample: on a generic collaborator exception asn_lookup
does not return an inspectable outcome carrying an ErrorKind and the
collaborator message: it returns None, and the returned value is
identical for two different collaborator messages, so neither an
ErrorKind nor a message can be recovered from it. -/
theorem asn_lookup_generic_counterexample :
    (asn_lookup (fun _ => RdapOutcome.failure ("network unreachable")) ("8.8.8.8")).result =
      none ∧
    (asn_lookup (fun _ => RdapOutcome.failure ("network unreachable")) ("8.8.8.8")).result =
      (asn_lookup (fun _ => RdapOutcome.failure ("registry timeout")) ("8.8.8.8")).result :=
  ⟨rfl, rfl⟩

/-- C2 amended: every exception the registry collaborator raises other
than IPDefinedError is caught by the broad except clause and never
propagates: asn_lookup returns normally with None and prints exactly one
diagnostic line, ASN lookup failed followed by the collaborator message;
the message reaches the caller only through that printed line, not
through the returned value. -/
theorem asn_lookup_generic_caught (registry : String → RdapOutcome) (ip m : String)
    (h : registry ip = RdapOutcome.failure m) :
    asn_lookup registry ip =
      { result := none, printed := ["ASN lookup failed: " ++ m],
        queries := [RdapQuery.lookup_rdap ["whois"]] } := by
  simp [asn_lookup, h]

/-- C2 witness: the amended theorem at a concrete failing collaborator. -/
theorem asn_lookup_generic_caught_witness :
    asn_lookup (fun _ => RdapOutcome.failure ("network unreachable")) ("8.8.8.8") =
      { result := none, printed := ["ASN lookup failed: " ++ "network unreachable"],
        queries := [RdapQuery.lookup_rdap ["whois"]] } :=
  asn_lookup_generic_caught (fun _ => RdapOutcome.failure ("network unreachable"))
    ("8.8.8.8") ("network unreachable") rfl

/-- A concrete successful response whose network dictionary is missing
and whose events list is empty. -/
def sampleNoNetwork : RdapResponse :=
  { asn := "15169", asn_cidr := "8.8.8.0/24", asn_country_code := "US",
    asn_registry := "arin", asn_description := "GOOGLE, US", asn_date := "1992-12-01",
    network := none, events := [] }

/-- C6 counterexample: for a successful response with the network
dictionary missing, the lookup does report success, but the NetworkInfo
fields do not resolve to the N/A sentinel: the main block skips the
whole network-details section, so no network line, and in particular no
sentinel line such as Network Name: N/A, is ever printed. -/
theorem missing_network_counterexample :
    (asn_lookup (fun _ => RdapOutcome.success sampleNoNetwork) ("8.8.8.8")).result =
      some sampleNoNetwork ∧
    sampleNoNetwork.network = none ∧
    networkLines sampleNoNetwork = [] ∧
    ("Network Name: " ++ na) ∉ print_asn_info ("8.8.8.8") sampleNoNetwork := by
  refine ⟨rfl, rfl, rfl, ?_⟩
  decide

/-- C6 amended: when the network sub-object is absent from a successful
collaborator response, the lookup still reports success, returning the
response unchanged, but the presentation layer prints no network details
at all: the network-details section is skipped entirely, and the full
output is the header lines followed directly by the event lines. The
N/A sentinel is substituted only for individually missing subfields of a
present network object. -/
theorem missing_network_skips_details (registry : String → RdapOutcome) (ip : String)
    (res : RdapResponse) (hc : registry ip = RdapOutcome.success res)
    (hn : res.network = none) :
    (asn_lookup registry ip).result = some res ∧
    networkLines res = [] ∧
    print_asn_info ip res = headerLines ip res ++ eventLines res := by
  refine ⟨by simp [asn_lookup, hc], ?_, ?_⟩
  · simp [networkLines, hn]
  · simp [print_asn_info, networkLines, hn]

/-- C6 witness: the amended theorem at the concrete response. -/
theorem missing_network_skips_details_witness :
    (asn_lookup (fun _ => RdapOutcome.success sampleNoNetwork) ("8.8.8.8")).result =
      some sampleNoNetwork ∧
    networkLines sampleNoNetwork = [] ∧
    print_asn_info ("8.8.8.8") sampleNoNetwork =
      headerLines ("8.8.8.8") sampleNoNetwork ++ eventLines sampleNoNetwork :=
  missing_network_skips_details (fun _ => RdapOutcome.success sampleNoNetwork)
    ("8.8.8.8") sampleNoNetwork rfl rfl

/-- A concrete successful response whose events carry dates out of
chronological order, as in the stub of the specification. -/
def sampleEvents : RdapResponse :=
  { asn := "15169", asn_cidr := "8.8.8.0/24", asn_country_code := "US",
    asn_registry := "arin", asn_description := "GOOGLE, US", asn_date := "1992-12-01",
    network := none,
    events := [{ event_action := some ("last changed"), event_date := some ("2020-01-01") },
               { event_action := some ("registration"), event_date := some ("2015-05-05") }] }

/-- C7: for every successful collaborator response with a non-empty
event list, the lookup outcome carries the response, hence its event
list, unchanged, and the printed event history is the header followed by
the elementwise rendering of that list in place: an order-preserving
map, never a re-sort, whatever the dates are. -/
theorem events_order_preserved (registry : String → RdapOutcome) (ip : String)
    (res : RdapResponse) (hc : registry ip = RdapOutcome.success res)
    (hne : res.events ≠ []) :
    (asn_lookup registry ip).result = some res ∧
    eventLines res = "\nEvent History:" :: res.events.map eventLine := by
  constructor
  · simp [asn_lookup, hc]
  · have hb : res.events.isEmpty = false := by
      cases he : res.events with
      | nil => exact absurd he hne
      | cons e es => simp [he]
    simp [eventLines, hb]

/-- C7 witness: the theorem at the stub response whose first event is
dated 2020-01-01 and second 2015-05-05; the rendered history keeps that
exact registry-supplied order instead of sorting by date. -/
theorem events_order_preserved_witness :
    (asn_lookup (fun _ => RdapOutcome.success sampleEvents) ("8.8.8.8")).result =
      some sampleEvents ∧
    eventLines sampleEvents = "\nEvent History:" :: sampleEvents.events.map eventLine :=
  events_order_preserved (fun _ => RdapOutcome.success sampleEvents) ("8.8.8.8")
    sampleEvents rfl (by decide)

/-- C8: for every collaborator behaviour and every ip, asn_lookup issues
exactly one registry query, the RDAP lookup with asn_methods the
singleton whois list, and never issues a pure WHOIS query. -/
theorem single_rdap_query (registry : String → RdapOutcome) (ip : String) :
    (asn_lookup registry ip).queries = [RdapQuery.lookup_rdap ["whois"]] ∧
    ∀ ms, RdapQuery.lookup_whois ms ∉ (asn_lookup registry ip).queries := by
  cases h : registry ip <;> simp [asn_lookup, h]

/-- C8 witness: the theorem at a concrete collaborator and ip. -/
theorem single_rdap_query_witness :
    (asn_lookup (fun _ => RdapOutcome.failure ("timeout")) ("1.1.1.1")).queries =
      [RdapQuery.lookup_rdap ["whois"]] :=
  (single_rdap_query (fun _ => RdapOutcome.failure ("timeout")) ("1.1.1.1")).1

/-- A concrete successful response with a full network dictionary and a
non-empty event list. -/
def sampleFull : RdapResponse :=
  { asn := "13335", asn_cidr := "1.1.1.0/24", asn_country_code := "AU",
    asn_registry := "apnic", asn_description := "CLOUDFLARENET, US", asn_date := "2011-08-11",
    network := some { name := some ("APNIC-LABS"), start_address := some ("1.1.1.0"),
                      end_address := some ("1.1.1.255"), country := some ("AU"),
                      type_ := some ("ASSIGNED PORTABLE"), description := none },
    events := [{ event_action := some ("registration"), event_date := some ("2011-08-11") }] }

/-- C10: on every successful registry query asn_lookup returns the
collaborator response object unchanged, printing nothing: no field
extraction, renaming or sentinel substitution happens in the lookup
client; the shaping into header, network and event lines is done only by
the presentation functions of the main block. -/
theorem lookup_returns_response_unchanged (registry : String → RdapOutcome) (ip : String)
    (res : RdapResponse) (hc : registry ip = RdapOutcome.success res) :
    asn_lookup registry ip =
      { result := some res, printed := [],
        queries := [RdapQuery.lookup_rdap ["whois"]] } := by
  simp [asn_lookup, hc]

/-- C10 witness: the theorem at a concrete full response. -/
theorem lookup_returns_response_unchanged_witness :
    asn_lookup (fun _ => RdapOutcome.success sampleFull) ("1.1.1.1") =
      { result := some sampleFull, printed := [],
        queries := [RdapQuery.lookup_rdap ["whois"]] } :=
  lookup_returns_response_unchanged (fun _ => RdapOutcome.success sampleFull)
    ("1.1.1.1") sampleFull rfl
